import Mathlib

/-!
# Verification of the water-delivery ordering application's data-access layer

Shallow embedding of the domain access functions in
`src/src/services/database.ts` (current revision) and `src/unnamed/part_001`
(an earlier revision of the same module), together with the booking-cart
logic of `src/unnamed/part_002` and, where noted, behaviour modelled from
the specification because the deciding code is not among the provided
source files.

The remote relational store is modelled as an explicit record of tables
(lists of rows); each access function becomes a pure state transformer.
Where a claim depends on failures of the underlying remote calls, the
outcome of each call is an explicit parameter (a success flag or an
outcome value); otherwise the store applies each row operation
deterministically.  Identifiers generated by the store (`gen_random_uuid`)
are modelled by a fresh-id counter `nextId`.
-/

namespace Aqua

/-- Order status enumeration, per the `orders.status` check constraint in
the schema (`src/unnamed/part_000`, line 87). -/
inductive Status where
  | pending
  | acknowledged
  | confirmed
  | inTransit
  | delivered
  | cancelled
deriving DecidableEq, Repr

/-- A row of the `users` table (columns used by the access functions). -/
structure UserRow where
  id : Nat
  user_id : String
  name : String
  phone : String
  user_type : String
  area_id : Option Nat
  service_area : String
deriving DecidableEq, Repr

/-- A row of the `addresses` table. -/
structure AddressRow where
  id : Nat
  user_id : Nat
  label : String
  street : String
  city : String
  state : String
  zip_code : String
  is_default : Bool
  area_id : Option Nat
deriving DecidableEq, Repr

/-- A row of the `service_areas` table. -/
structure ServiceAreaRow where
  id : Nat
  name : String
  vendor_id : Nat
  vendor_name : String
deriving DecidableEq, Repr

/-- A row of the `inventory_items` table.  `price` and `stock` are numeric
columns; they are modelled as integers (the application only ever stores
integral quantities, and the clamped decrement `max(0, stock - quantity)`
needs subtraction below zero to be representable). -/
structure InventoryItemRow where
  id : Nat
  vendor_id : Nat
  name : String
  price : Int
  stock : Int
  description : String
deriving DecidableEq, Repr

/-- A row of the `orders` table. -/
structure OrderRow where
  id : Nat
  customer_id : Nat
  customer_name : String
  customer_phone : String
  customer_user_id : String
  vendor_id : Nat
  vendor_name : String
  area_id : Option Nat
  address_id : Nat
  total : Int
  status : Status
  delivery_date : String
  preferred_time : String
  invoice_id : Option String
deriving DecidableEq, Repr

/-- A row of the `order_items` table.  The storage-generated primary key of
this table is never read by any access function, so it is omitted from the
embedding. -/
structure OrderItemRow where
  order_id : Nat
  inventory_item_id : Nat
  name : String
  quantity : Int
  price : Int
deriving DecidableEq, Repr

/-- A row of the `order_messages` table (storage-generated key omitted, as
for `OrderItemRow`). -/
structure OrderMessageRow where
  order_id : Nat
  sender : String
  sender_name : String
  message : String
deriving DecidableEq, Repr

/-- The remote store: one list per table, plus the fresh-identifier
counter standing in for `gen_random_uuid()`. -/
structure Db where
  users : List UserRow
  addresses : List AddressRow
  serviceAreas : List ServiceAreaRow
  inventory : List InventoryItemRow
  orders : List OrderRow
  orderItems : List OrderItemRow
  orderMessages : List OrderMessageRow
  nextId : Nat
deriving Repr

/-- The empty store. -/
def Db.empty : Db :=
  { users := [], addresses := [], serviceAreas := [], inventory := []
  , orders := [], orderItems := [], orderMessages := [], nextId := 0 }

/-- The uniform `{ data, error }` result pair returned by every access
function.  Error values are opaque codes. -/
structure DbResult (α : Type) where
  data : Option α
  error : Option Nat
deriving DecidableEq, Repr

/-- Opaque error code standing for whatever error object the gateway
returned. -/
def gwErr : Nat := 1

/-! ## Address operations (`createAddress`, `updateAddress`)

From `src/src/services/database.ts` lines 247-326 (the logic of the
earlier revision `src/unnamed/part_001` lines 188-258 is the same for the
default-clearing sequence). -/

/-- Input of `createAddress` (`Omit<Address, 'id'> & { userId: string }`). -/
structure AddressInput where
  userId : Nat
  label : String
  street : String
  city : String
  state : String
  zipCode : String
  isDefault : Bool
  areaId : Option Nat
deriving DecidableEq, Repr

/-- The update object of `updateAddress` (`Partial<Address> &
{ isDefault?: boolean }`): each field is present (`some`) or absent
(`none`, i.e. `undefined`). -/
structure AddressUpdates where
  label : Option String
  street : Option String
  city : Option String
  state : Option String
  zipCode : Option String
  isDefault : Option Bool
  areaId : Option Nat
deriving DecidableEq, Repr

/-- The write `update({ is_default: false }).eq('user_id', uid)`: clear the
default flag on every address of user `uid`. -/
def clearUserDefaults (uid : Nat) (l : List AddressRow) : List AddressRow :=
  l.map fun r => if r.user_id = uid then { r with is_default := false } else r

/-- `createAddress` (database.ts lines 247-281): when `isDefault` is set,
first clear all defaults of the owning user, then insert the new row. -/
def createAddress (db : Db) (a : AddressInput) : Db :=
  let cleared :=
    if a.isDefault then clearUserDefaults a.userId db.addresses else db.addresses
  { db with
    addresses := cleared ++
      [ { id := db.nextId, user_id := a.userId, label := a.label
        , street := a.street, city := a.city, state := a.state
        , zip_code := a.zipCode, is_default := a.isDefault
        , area_id := a.areaId } ]
    nextId := db.nextId + 1 }

/-- The partial-field patch applied by `updateAddress`'s main write: a
column is written only when the corresponding update field is present. -/
def applyAddressUpdates (u : AddressUpdates) (r : AddressRow) : AddressRow :=
  { r with
    label := match u.label with | some v => v | none => r.label
    street := match u.street with | some v => v | none => r.street
    city := match u.city with | some v => v | none => r.city
    state := match u.state with | some v => v | none => r.state
    zip_code := match u.zipCode with | some v => v | none => r.zip_code
    is_default := match u.isDefault with | some v => v | none => r.is_default
    area_id := match u.areaId with | some v => some v | none => r.area_id }

/-- `updateAddress` (database.ts lines 283-326): if the update makes this
address the default (`if (updates.isDefault)`, i.e. the field is present
and `true`), read the address's owning user and clear that user's
defaults; then apply the partial patch to the row with the given id. -/
def updateAddress (db : Db) (id : Nat) (u : AddressUpdates) : Db :=
  let pre :=
    if u.isDefault = some true then
      match db.addresses.find? (fun r => r.id = id) with
      | some addr => clearUserDefaults addr.user_id db.addresses
      | none => db.addresses
    else db.addresses
  { db with
    addresses := pre.map fun r => if r.id = id then applyAddressUpdates u r else r }

/-- One address-mutating call. -/
inductive AddressOp where
  | create (a : AddressInput)
  | update (id : Nat) (u : AddressUpdates)
deriving Repr

/-- Apply one address operation. -/
def applyAddressOp (db : Db) (op : AddressOp) : Db :=
  match op with
  | .create a => createAddress db a
  | .update id u => updateAddress db id u

/-- Apply a sequence of address operations (no concurrent interleaving:
each call runs to completion before the next starts). -/
def applyAddressOps (db : Db) (ops : List AddressOp) : Db :=
  ops.foldl applyAddressOp db

/-! ## Order creation and status update -/

/-- A cart line / order line item as the views hand it to `createOrder`
(the TS `OrderItem` shape used by the booking form: `{ id, name, quantity,
price }`, where `id` is the inventory item's id and `price` the price
copied from the inventory snapshot). -/
structure CartItem where
  id : Nat
  name : String
  quantity : Int
  price : Int
deriving DecidableEq, Repr

/-- Input of `createOrder`
(`Omit<Order, 'id' | 'orderDate' | 'messages' | 'items'> & { items: OrderItem[] }`). -/
structure OrderInput where
  customerId : Nat
  customerName : String
  customerPhone : String
  customerUserId : String
  vendorId : Nat
  vendorName : String
  areaId : Option Nat
  addressId : Nat
  total : Int
  deliveryDate : String
  preferredTime : String
  items : List CartItem
deriving DecidableEq, Repr

/-- The order row `createOrder` inserts: the input's fields, the vendor
name resolved by the prior lookup (`vendor?.name || 'Unknown Vendor'`),
the default status `pending`, and a fresh id. -/
def createdOrderRow (db : Db) (o : OrderInput) : OrderRow :=
  { id := db.nextId, customer_id := o.customerId
  , customer_name := o.customerName, customer_phone := o.customerPhone
  , customer_user_id := o.customerUserId, vendor_id := o.vendorId
  , vendor_name :=
      match db.users.find? (fun u => u.id = o.vendorId) with
      | some v => v.name
      | none => "Unknown Vendor"
  , area_id := o.areaId, address_id := o.addressId, total := o.total
  , status := Status.pending, delivery_date := o.deliveryDate
  , preferred_time := o.preferredTime, invoice_id := none }

/-- The `order_items` rows `createOrder` inserts: one per input item, each
carrying the input item's quantity and price unchanged. -/
def createdOrderItemRows (db : Db) (o : OrderInput) : List OrderItemRow :=
  o.items.map fun it =>
    { order_id := db.nextId, inventory_item_id := it.id, name := it.name
    , quantity := it.quantity, price := it.price }

/-- `createOrder` (database.ts lines 551-608): look up the vendor's name,
insert the order row, then — when the item list is non-empty — insert one
`order_items` row per input item.  The success of the two inserts is
driven by the explicit flags `orderInsertOk` and `itemsInsertOk` (the
remote store may fail either call); a failed insert leaves the store
unchanged by that call and surfaces an error.  There is no compensating
rollback: when the item insert fails the already-inserted order row
stays. -/
def createOrder (db : Db) (o : OrderInput) (orderInsertOk itemsInsertOk : Bool) :
    DbResult OrderRow × Db :=
  if orderInsertOk = false then
    (⟨none, some gwErr⟩, db)
  else
    let row := createdOrderRow db o
    let db1 := { db with orders := db.orders ++ [row], nextId := db.nextId + 1 }
    if o.items.isEmpty then
      (⟨some row, none⟩, db1)
    else if itemsInsertOk = false then
      (⟨none, some gwErr⟩, db1)
    else
      (⟨some row, none⟩,
       { db1 with orderItems := db1.orderItems ++ createdOrderItemRows db o })

/-- `updateOrderStatus` (database.ts lines 610-628; identically
`src/unnamed/part_001` lines 496-510): `update({ status }).eq('id', id)` —
a single-column write on the orders whose id matches. -/
def updateOrderStatusDb (db : Db) (id : Nat) (st : Status) : Db :=
  { db with
    orders := db.orders.map fun r => if r.id = id then { r with status := st } else r }

/-! ## Composite reads (`getOrdersByCustomer`, `getOrdersByVendor`)

From database.ts lines 467-549.  For each matching order the function
issues three concurrent sub-reads (items, messages, address) and merges
them; the success of each sub-read is driven by per-order flags. -/

/-- Success flags for the three per-order sub-reads. -/
structure SubFlags where
  itemsOk : Bool
  messagesOk : Bool
  addressOk : Bool
deriving DecidableEq, Repr

/-- The denormalized object built per order: `{ ...order, order_items,
order_messages, address }`. -/
structure OrderWithDetails where
  row : OrderRow
  order_items : List OrderItemRow
  order_messages : List OrderMessageRow
  address : Option AddressRow
deriving DecidableEq, Repr

/-- The three-way join for one order: a failed sub-read returns
`{ data: null, error }`, and the merge writes `itemsResult.data || []`,
`messagesResult.data || []`, and `addressResult.data` (which is `null`
both on failure and when `.single()` matches no row). -/
def orderSubJoin (db : Db) (o : OrderRow) (f : SubFlags) : OrderWithDetails :=
  { row := o
  , order_items :=
      if f.itemsOk then db.orderItems.filter (fun r => r.order_id = o.id) else []
  , order_messages :=
      if f.messagesOk then db.orderMessages.filter (fun r => r.order_id = o.id) else []
  , address :=
      if f.addressOk then db.addresses.find? (fun a => a.id = o.address_id) else none }

/-- `getOrdersByVendor` (database.ts lines 509-549): on a failed orders
query return the error; on zero matching rows return `{ data: [], error:
null }`; otherwise fan out the three sub-reads per order (success flags
given per order id) and return the merged list with a null error. -/
def getOrdersByVendor (db : Db) (vendorId : Nat) (ordersQueryOk : Bool)
    (sub : Nat → SubFlags) : DbResult (List OrderWithDetails) :=
  if ordersQueryOk = false then ⟨none, some gwErr⟩
  else
    let orders := db.orders.filter (fun r => r.vendor_id = vendorId)
    if orders.isEmpty then ⟨some [], none⟩
    else ⟨some (orders.map fun o => orderSubJoin db o (sub o.id)), none⟩

/-- `getOrdersByCustomer` (database.ts lines 467-507): identical to
`getOrdersByVendor` but filtering on `customer_id`. -/
def getOrdersByCustomer (db : Db) (customerId : Nat) (ordersQueryOk : Bool)
    (sub : Nat → SubFlags) : DbResult (List OrderWithDetails) :=
  if ordersQueryOk = false then ⟨none, some gwErr⟩
  else
    let orders := db.orders.filter (fun r => r.customer_id = customerId)
    if orders.isEmpty then ⟨some [], none⟩
    else ⟨some (orders.map fun o => orderSubJoin db o (sub o.id)), none⟩

/-! ## Partial updates (`updateUser`, `updateServiceArea`,
`updateInventoryItem`)

From database.ts lines 98-122, 184-207 and 422-446: each builds an
`updateData` object containing exactly the fields present
(`!== undefined`) in the input, so absent fields are not part of the
write.  (The earlier revision `src/unnamed/part_001` passes every field,
absent ones carrying `undefined`; the gateway's JSON serialization drops
`undefined`-valued keys, so the applied write is the same patch.) -/

/-- The `Partial<User>` update object of `updateUser`. -/
structure UserUpdates where
  name : Option String
  phone : Option String
  areaId : Option Nat
  serviceArea : Option String
deriving DecidableEq, Repr

/-- The patch `updateUser` sends: only present fields are written. -/
def applyUserUpdates (u : UserUpdates) (r : UserRow) : UserRow :=
  { r with
    name := match u.name with | some v => v | none => r.name
    phone := match u.phone with | some v => v | none => r.phone
    area_id := match u.areaId with | some v => some v | none => r.area_id
    service_area := match u.serviceArea with | some v => v | none => r.service_area }

/-- `updateUser` (database.ts lines 98-122). -/
def updateUserDb (db : Db) (id : Nat) (u : UserUpdates) : Db :=
  { db with
    users := db.users.map fun r => if r.id = id then applyUserUpdates u r else r }

/-- The `Partial<ServiceArea>` update object of `updateServiceArea`. -/
structure ServiceAreaUpdates where
  name : Option String
  vendorId : Option Nat
  vendorName : Option String
deriving DecidableEq, Repr

/-- The patch `updateServiceArea` sends. -/
def applyServiceAreaUpdates (u : ServiceAreaUpdates) (r : ServiceAreaRow) : ServiceAreaRow :=
  { r with
    name := match u.name with | some v => v | none => r.name
    vendor_id := match u.vendorId with | some v => v | none => r.vendor_id
    vendor_name := match u.vendorName with | some v => v | none => r.vendor_name }

/-- `updateServiceArea` (database.ts lines 184-207). -/
def updateServiceAreaDb (db : Db) (id : Nat) (u : ServiceAreaUpdates) : Db :=
  { db with
    serviceAreas :=
      db.serviceAreas.map fun r => if r.id = id then applyServiceAreaUpdates u r else r }

/-- The `Partial<InventoryItem>` update object of `updateInventoryItem`. -/
structure InventoryUpdates where
  name : Option String
  price : Option Int
  stock : Option Int
  description : Option String
deriving DecidableEq, Repr

/-- The patch `updateInventoryItem` sends (database.ts lines 422-446; the
earlier revision lines 337-357 is the same conditional construction). -/
def applyInventoryUpdates (u : InventoryUpdates) (r : InventoryItemRow) : InventoryItemRow :=
  { r with
    name := match u.name with | some v => v | none => r.name
    price := match u.price with | some v => v | none => r.price
    stock := match u.stock with | some v => v | none => r.stock
    description := match u.description with | some v => v | none => r.description }

/-- `updateInventoryItem` applied to the store. -/
def updateInventoryItemDb (db : Db) (id : Nat) (u : InventoryUpdates) : Db :=
  { db with
    inventory :=
      db.inventory.map fun r => if r.id = id then applyInventoryUpdates u r else r }

/-- A sequence of `updateInventoryItem` calls (used to express that later
inventory edits leave already-created order items untouched). -/
def applyInventoryOps (db : Db) (ops : List (Nat × InventoryUpdates)) : Db :=
  ops.foldl (fun d p => updateInventoryItemDb d p.1 p.2) db

/-! ## Order lifecycle controller (status transitions) -/

/-- Modelled from the spec: the order-management view that drives status
transitions is not among the provided source files under `src/` (only the
`updateOrderStatus` access function it calls is).  Per §4.2 of the spec,
on the transition to `delivered` — and only on that transition — the
controller, for each OrderItem of the order, re-reads the current
inventory, locates the matching item, and writes
`stock = max(0, stock - quantity)`.  The sequential read-then-write per
item is a fold over the order's items, each step acting on the inventory
produced by the previous step. -/
def deliverInventoryForOrder (db : Db) (orderId : Nat) : List InventoryItemRow :=
  (db.orderItems.filter (fun r => r.order_id = orderId)).foldl
    (fun inv oi =>
      inv.map fun it =>
        if it.id = oi.inventory_item_id then
          { it with stock := max 0 (it.stock - oi.quantity) }
        else it)
    db.inventory

/-- Modelled from the spec (§4.2): one status transition as the
order-management view performs it — call `updateOrderStatus`, and when the
new status is `delivered` additionally run the per-item inventory
decrement.  No other status value touches inventory. -/
def applyStatusTransition (db : Db) (orderId : Nat) (st : Status) : Db :=
  let db1 := updateOrderStatusDb db orderId st
  if st = Status.delivered then
    { db1 with inventory := deliverInventoryForOrder db1 orderId }
  else db1

/-- A sequence of status transitions. -/
def applyStatusTransitions (db : Db) (ts : List (Nat × Status)) : Db :=
  ts.foldl (fun d t => applyStatusTransition d t.1 t.2) db

/-! ## Booking cart (`src/unnamed/part_002`) -/

/-- `addToCart` (part_002 lines 56-76): ignore items with zero stock; if
the item is already in the cart, increment its quantity only while it is
below the item's stock; otherwise append a new entry with quantity 1. -/
def addToCart (cart : List CartItem) (item : InventoryItemRow) : List CartItem :=
  if item.stock = 0 then cart
  else
    match cart.find? (fun c => c.id = item.id) with
    | some existing =>
        if existing.quantity < item.stock then
          cart.map fun c =>
            if c.id = item.id then { c with quantity := c.quantity + 1 } else c
        else cart
    | none =>
        cart ++ [ { id := item.id, name := item.name, quantity := 1
                  , price := item.price } ]

/-- `updateCartQuantity` (part_002 lines 78-89): no-op when the id matches
no loaded inventory item; remove the entry when the requested quantity is
zero or less; set the quantity when it does not exceed the item's stock;
otherwise no-op. -/
def updateCartQuantity (inventory : List InventoryItemRow) (cart : List CartItem)
    (itemId : Nat) (qty : Int) : List CartItem :=
  match inventory.find? (fun it => it.id = itemId) with
  | none => cart
  | some invItem =>
      if qty ≤ 0 then cart.filter (fun c => ¬(c.id = itemId))
      else if qty ≤ invItem.stock then
        cart.map fun c => if c.id = itemId then { c with quantity := qty } else c
      else cart

/-- One cart action. -/
inductive CartOp where
  | add (item : InventoryItemRow)
  | setQty (itemId : Nat) (qty : Int)
deriving Repr

/-- The component only ever calls `addToCart` with an item of the loaded
inventory list (the add buttons are rendered from `inventory`). -/
def CartOpOk (inventory : List InventoryItemRow) : CartOp → Prop
  | .add item => item ∈ inventory
  | .setQty _ _ => True

/-- The inventory-item id an action refers to. -/
def cartOpId : CartOp → Nat
  | .add item => item.id
  | .setQty itemId _ => itemId

/-- Apply one cart action. -/
def applyCartOp (inventory : List InventoryItemRow) (cart : List CartItem)
    (op : CartOp) : List CartItem :=
  match op with
  | .add item => addToCart cart item
  | .setQty itemId qty => updateCartQuantity inventory cart itemId qty

/-- Run a sequence of cart actions from the empty cart. -/
def applyCartOps (inventory : List InventoryItemRow) (ops : List CartOp) :
    List CartItem :=
  ops.foldl (applyCartOp inventory) []

/-! ## Result-level behaviour under remote-call failure

For the error-handling claims the outcome of the underlying remote call is
an explicit value: the gateway either returned data, returned an error
pair, or threw. -/

/-- Outcome of one underlying remote call. -/
inductive GwOutcome (α : Type) where
  | ok (data : α)
  | err (e : Nat)
  | thrown (e : Nat)
deriving DecidableEq, Repr

/-- `createUser` (database.ts lines 52-77): a returned error yields
`{ data: null, error }`; a thrown exception is caught and yields
`{ data: null, error: err }`; otherwise `{ data, error: null }`. -/
def createUserResult (out : GwOutcome UserRow) : DbResult UserRow :=
  match out with
  | .ok u => ⟨some u, none⟩
  | .err e => ⟨none, some e⟩
  | .thrown e => ⟨none, some e⟩

/-- `updateUser` (database.ts lines 98-122): returns the gateway's
`{ data, error }` (data is null when the gateway reports an error); a
thrown exception is caught into `{ data: null, error: err }`. -/
def updateUserResult (out : GwOutcome UserRow) : DbResult UserRow :=
  match out with
  | .ok u => ⟨some u, none⟩
  | .err e => ⟨none, some e⟩
  | .thrown e => ⟨none, some e⟩

/-- `getUserAddresses` (database.ts lines 228-245): same wrapping shape on
a list read. -/
def getUserAddressesResult (out : GwOutcome (List AddressRow)) :
    DbResult (List AddressRow) :=
  match out with
  | .ok l => ⟨some l, none⟩
  | .err e => ⟨none, some e⟩
  | .thrown e => ⟨none, some e⟩

/-- `createInventoryItem` (database.ts lines 397-420). -/
def createInventoryItemResult (out : GwOutcome InventoryItemRow) :
    DbResult InventoryItemRow :=
  match out with
  | .ok it => ⟨some it, none⟩
  | .err e => ⟨none, some e⟩
  | .thrown e => ⟨none, some e⟩

/-- `updateOrderStatus` (database.ts lines 610-628), result shape. -/
def updateOrderStatusResult (out : GwOutcome OrderRow) : DbResult OrderRow :=
  match out with
  | .ok r => ⟨some r, none⟩
  | .err e => ⟨none, some e⟩
  | .thrown e => ⟨none, some e⟩

/-- `createOrderMessage` (database.ts lines 651-673). -/
def createOrderMessageResult (out : GwOutcome OrderMessageRow) :
    DbResult OrderMessageRow :=
  match out with
  | .ok m => ⟨some m, none⟩
  | .err e => ⟨none, some e⟩
  | .thrown e => ⟨none, some e⟩

/-- A row of the `invoices` table (columns used by the invoice access
functions). -/
structure InvoiceRow where
  id : Nat
  invoice_id : String
  order_id : Nat
  amount : Int
  due_date : String
  status : String
deriving DecidableEq, Repr

/-- The `{ error }`-only result returned by the delete functions and
`signOut`. -/
structure ErrResult where
  error : Option Nat
deriving DecidableEq, Repr

/-- `signUp` (database.ts lines 5-16): `{ data, error }` passthrough of
the auth call, a thrown exception caught into `{ data: null, error }`.
The auth payload is opaque here. -/
def signUpResult (out : GwOutcome Unit) : DbResult Unit :=
  match out with
  | .ok u => ⟨some u, none⟩
  | .err e => ⟨none, some e⟩
  | .thrown e => ⟨none, some e⟩

/-- `signIn` (database.ts lines 18-29): same wrapping shape. -/
def signInResult (out : GwOutcome Unit) : DbResult Unit :=
  match out with
  | .ok u => ⟨some u, none⟩
  | .err e => ⟨none, some e⟩
  | .thrown e => ⟨none, some e⟩

/-- `signOut` (database.ts lines 31-39): returns `{ error }` only; a
thrown exception is caught into `{ error: err }`. -/
def signOutResult (out : GwOutcome Unit) : ErrResult :=
  match out with
  | .ok _ => ⟨none⟩
  | .err e => ⟨some e⟩
  | .thrown e => ⟨some e⟩

/-- `signUp` of the earlier revision (`src/unnamed/part_001` lines 5-11):
no `try`/`catch`, so a thrown auth failure propagates. -/
def signUpLegacy (out : GwOutcome Unit) : Except Nat (DbResult Unit) :=
  match out with
  | .ok u => .ok ⟨some u, none⟩
  | .err e => .ok ⟨none, some e⟩
  | .thrown e => .error e

/-- `signIn` of the earlier revision (part_001 lines 13-19): no
`try`/`catch`. -/
def signInLegacy (out : GwOutcome Unit) : Except Nat (DbResult Unit) :=
  match out with
  | .ok u => .ok ⟨some u, none⟩
  | .err e => .ok ⟨none, some e⟩
  | .thrown e => .error e

/-- `signOut` of the earlier revision (part_001 lines 21-24): no
`try`/`catch`. -/
def signOutLegacy (out : GwOutcome Unit) : Except Nat ErrResult :=
  match out with
  | .ok _ => .ok ⟨none⟩
  | .err e => .ok ⟨some e⟩
  | .thrown e => .error e

/-- `getUserByUserId` (database.ts lines 79-96): `{ data, error }`
passthrough (the not-found error included), thrown exceptions caught. -/
def getUserByUserIdResult (out : GwOutcome UserRow) : DbResult UserRow :=
  match out with
  | .ok u => ⟨some u, none⟩
  | .err e => ⟨none, some e⟩
  | .thrown e => ⟨none, some e⟩

/-- `deleteUser` (database.ts lines 124-140): `{ error }` only. -/
def deleteUserResult (out : GwOutcome Unit) : ErrResult :=
  match out with
  | .ok _ => ⟨none⟩
  | .err e => ⟨some e⟩
  | .thrown e => ⟨some e⟩

/-- `getServiceAreas` (database.ts lines 143-159). -/
def getServiceAreasResult (out : GwOutcome (List ServiceAreaRow)) :
    DbResult (List ServiceAreaRow) :=
  match out with
  | .ok l => ⟨some l, none⟩
  | .err e => ⟨none, some e⟩
  | .thrown e => ⟨none, some e⟩

/-- `createServiceArea` (database.ts lines 161-182). -/
def createServiceAreaResult (out : GwOutcome ServiceAreaRow) :
    DbResult ServiceAreaRow :=
  match out with
  | .ok s => ⟨some s, none⟩
  | .err e => ⟨none, some e⟩
  | .thrown e => ⟨none, some e⟩

/-- `updateServiceArea` (database.ts lines 184-207). -/
def updateServiceAreaResult (out : GwOutcome ServiceAreaRow) :
    DbResult ServiceAreaRow :=
  match out with
  | .ok s => ⟨some s, none⟩
  | .err e => ⟨none, some e⟩
  | .thrown e => ⟨none, some e⟩

/-- `deleteServiceArea` (database.ts lines 209-225): `{ error }` only. -/
def deleteServiceAreaResult (out : GwOutcome Unit) : ErrResult :=
  match out with
  | .ok _ => ⟨none⟩
  | .err e => ⟨some e⟩
  | .thrown e => ⟨some e⟩

/-- `createAddress` (database.ts lines 247-281), result shape.
`outClear` is the outcome of the default-clearing pre-write when issued
(pass `.ok ()` when the input is not a default and the write is skipped):
its returned error is ignored — the source awaits the call without
reading its result — but a thrown failure is caught by the function's
`try`/`catch` into `{ data: null, error }`.  `outInsert` is the main
insert, whose `{ data, error }` is returned. -/
def createAddressResult (outClear : GwOutcome Unit)
    (outInsert : GwOutcome AddressRow) : DbResult AddressRow :=
  match outClear with
  | .thrown e => ⟨none, some e⟩
  | _ =>
    match outInsert with
    | .ok r => ⟨some r, none⟩
    | .err e => ⟨none, some e⟩
    | .thrown e => ⟨none, some e⟩

/-- `updateAddress` (database.ts lines 283-326), result shape.
`outRead` is the owning-user pre-read and `outClear` the default-clearing
write (both issued only when the update sets the default; pass `.ok ()`
when skipped): their returned errors are ignored — the pre-read only
destructures `data`, the clearing write's result is discarded — but a
thrown failure of either is caught into `{ data: null, error }`.
`outUpdate` is the main write, whose `{ data, error }` is returned. -/
def updateAddressResult (outRead : GwOutcome Unit) (outClear : GwOutcome Unit)
    (outUpdate : GwOutcome AddressRow) : DbResult AddressRow :=
  match outRead with
  | .thrown e => ⟨none, some e⟩
  | _ =>
    match outClear with
    | .thrown e => ⟨none, some e⟩
    | _ =>
      match outUpdate with
      | .ok r => ⟨some r, none⟩
      | .err e => ⟨none, some e⟩
      | .thrown e => ⟨none, some e⟩

/-- `deleteAddress` (database.ts lines 328-344): `{ error }` only. -/
def deleteAddressResult (out : GwOutcome Unit) : ErrResult :=
  match out with
  | .ok _ => ⟨none⟩
  | .err e => ⟨some e⟩
  | .thrown e => ⟨some e⟩

/-- `getInventoryByVendor` (database.ts lines 347-364). -/
def getInventoryByVendorResult (out : GwOutcome (List InventoryItemRow)) :
    DbResult (List InventoryItemRow) :=
  match out with
  | .ok l => ⟨some l, none⟩
  | .err e => ⟨none, some e⟩
  | .thrown e => ⟨none, some e⟩

/-- `getInventoryByArea` (database.ts lines 366-395): the area read first
(`select('vendor_id').single()`); its failure is returned as
`{ data: null, error }`; then the inventory read, whose `{ data, error }`
is returned.  Thrown exceptions anywhere are caught. -/
def getInventoryByAreaResult (outArea : GwOutcome Nat)
    (outInv : GwOutcome (List InventoryItemRow)) :
    DbResult (List InventoryItemRow) :=
  match outArea with
  | .thrown e => ⟨none, some e⟩
  | .err e => ⟨none, some e⟩
  | .ok _ =>
    match outInv with
    | .ok l => ⟨some l, none⟩
    | .err e => ⟨none, some e⟩
    | .thrown e => ⟨none, some e⟩

/-- `updateInventoryItem` (database.ts lines 422-446), result shape. -/
def updateInventoryItemResult (out : GwOutcome InventoryItemRow) :
    DbResult InventoryItemRow :=
  match out with
  | .ok it => ⟨some it, none⟩
  | .err e => ⟨none, some e⟩
  | .thrown e => ⟨none, some e⟩

/-- `deleteInventoryItem` (database.ts lines 448-464): `{ error }`
only. -/
def deleteInventoryItemResult (out : GwOutcome Unit) : ErrResult :=
  match out with
  | .ok _ => ⟨none⟩
  | .err e => ⟨some e⟩
  | .thrown e => ⟨some e⟩

/-- `updateOrderInvoiceId` (database.ts lines 630-648). -/
def updateOrderInvoiceIdResult (out : GwOutcome OrderRow) : DbResult OrderRow :=
  match out with
  | .ok r => ⟨some r, none⟩
  | .err e => ⟨none, some e⟩
  | .thrown e => ⟨none, some e⟩

/-- `getInvoicesByVendor` (database.ts lines 676-696). -/
def getInvoicesByVendorResult (out : GwOutcome (List InvoiceRow)) :
    DbResult (List InvoiceRow) :=
  match out with
  | .ok l => ⟨some l, none⟩
  | .err e => ⟨none, some e⟩
  | .thrown e => ⟨none, some e⟩

/-- `createInvoice` (database.ts lines 698-721). -/
def createInvoiceResult (out : GwOutcome InvoiceRow) : DbResult InvoiceRow :=
  match out with
  | .ok i => ⟨some i, none⟩
  | .err e => ⟨none, some e⟩
  | .thrown e => ⟨none, some e⟩

/-- `updateInvoiceStatus` (database.ts lines 723-741). -/
def updateInvoiceStatusResult (out : GwOutcome InvoiceRow) : DbResult InvoiceRow :=
  match out with
  | .ok i => ⟨some i, none⟩
  | .err e => ⟨none, some e⟩
  | .thrown e => ⟨none, some e⟩

/-- `getCurrentUser` (database.ts lines 41-49): destructures
`data.user` from `supabase.auth.getUser()` — ignoring any returned error,
whose `data.user` is null — and on a thrown exception returns `null`.
The caller receives a bare `User | null`, not a `{ data, error }` pair:
no error field exists in its result. -/
def getCurrentUser (out : GwOutcome (Option UserRow)) : Option UserRow :=
  match out with
  | .ok u => u
  | .err _ => none
  | .thrown _ => none

/-- `getCurrentUser` of the earlier revision (`src/unnamed/part_001` lines
26-29): no `try`/`catch` at all, so a thrown gateway exception propagates
past the function's boundary — modelled as `Except.error`. -/
def getCurrentUserLegacy (out : GwOutcome (Option UserRow)) :
    Except Nat (Option UserRow) :=
  match out with
  | .ok u => .ok u
  | .err _ => .ok none
  | .thrown e => .error e

/-! ## Invariants -/

/-- Relation between two distinct address rows of a well-formed store:
their (storage-generated) ids differ, and they are not both default
addresses of the same user. -/
def AddrRel (r s : AddressRow) : Prop :=
  r.id ≠ s.id ∧ (r.user_id = s.user_id → ¬(r.is_default = true ∧ s.is_default = true))

/-- Well-formedness of the address table: pairwise `AddrRel` (in
particular at most one default address per user), and every stored id is
below the fresh-id counter. -/
def AddrInv (db : Db) : Prop :=
  db.addresses.Pairwise AddrRel ∧ ∀ r ∈ db.addresses, r.id < db.nextId

/-- Well-formedness of one cart entry with respect to the loaded
inventory: quantity at least 1, a corresponding inventory item exists,
and the quantity does not exceed the corresponding item's stock. -/
def CartEntryOk (inventory : List InventoryItemRow) (c : CartItem) : Prop :=
  1 ≤ c.quantity ∧ (∃ it ∈ inventory, it.id = c.id) ∧
    ∀ it ∈ inventory, it.id = c.id → c.quantity ≤ it.stock

/-- Cart invariant: every entry is well formed and there is at most one
entry per inventory item. -/
def CartInv (inventory : List InventoryItemRow) (cart : List CartItem) : Prop :=
  (∀ c ∈ cart, CartEntryOk inventory c) ∧ (cart.map (fun c => c.id)).Nodup

/-! ## Concrete sample data (used by the witness theorems) -/

/-- A sample order row. -/
def sampleOrder : OrderRow :=
  { id := 0, customer_id := 5, customer_name := "c", customer_phone := "p"
  , customer_user_id := "u", vendor_id := 7, vendor_name := "v"
  , area_id := none, address_id := 0, total := 80, status := Status.pending
  , delivery_date := "d", preferred_time := "t", invoice_id := none }

/-- A sample store holding one order. -/
def sampleDb : Db := { Db.empty with orders := [sampleOrder], nextId := 1 }

/-- A sample inventory item (id 1, stock 3, price 20). -/
def sampleItem : InventoryItemRow :=
  { id := 1, vendor_id := 7, name := "Can", price := 20, stock := 3
  , description := "" }

/-! # Theorems -/

/-- A successful orders query always yields the merged list and a null
error, whether or not any rows matched. -/
lemma getOrdersByVendor_ok (db : Db) (v : Nat) (sub : Nat → SubFlags) :
    getOrdersByVendor db v true sub =
      ⟨some ((db.orders.filter (fun r => r.vendor_id = v)).map
        fun o => orderSubJoin db o (sub o.id)), none⟩ := by
  unfold getOrdersByVendor
  simp only [Bool.true_eq_false, if_false]
  cases h : db.orders.filter (fun r => decide (r.vendor_id = v)) <;> simp [h]

/-- Customer-side counterpart of `getOrdersByVendor_ok`. -/
lemma getOrdersByCustomer_ok (db : Db) (c : Nat) (sub : Nat → SubFlags) :
    getOrdersByCustomer db c true sub =
      ⟨some ((db.orders.filter (fun r => r.customer_id = c)).map
        fun o => orderSubJoin db o (sub o.id)), none⟩ := by
  unfold getOrdersByCustomer
  simp only [Bool.true_eq_false, if_false]
  cases h : db.orders.filter (fun r => decide (r.customer_id = c)) <;> simp [h]

/-- C7: when the orders query succeeds and matches zero rows,
`getOrdersByVendor` returns an empty list with a null error — not a null
data value and not an error result — and likewise `getOrdersByCustomer`
for a customer with zero orders. -/
theorem c7_zero_orders_empty_list (db : Db) (v c : Nat) (sub sub' : Nat → SubFlags) :
    ((∀ r ∈ db.orders, r.vendor_id ≠ v) →
      getOrdersByVendor db v true sub = ⟨some [], none⟩) ∧
    ((∀ r ∈ db.orders, r.customer_id ≠ c) →
      getOrdersByCustomer db c true sub' = ⟨some [], none⟩) := by
  constructor
  · intro h
    rw [getOrdersByVendor_ok]
    have hfil : db.orders.filter (fun r => decide (r.vendor_id = v)) = [] :=
      List.filter_eq_nil_iff.mpr (fun a ha => by simpa using h a ha)
    simp [hfil]
  · intro h
    rw [getOrdersByCustomer_ok]
    have hfil : db.orders.filter (fun r => decide (r.customer_id = c)) = [] :=
      List.filter_eq_nil_iff.mpr (fun a ha => by simpa using h a ha)
    simp [hfil]

/-- C7 witness: a concrete store whose single order belongs to another
vendor. -/
theorem c7_zero_orders_empty_list_witness :
    (∀ r ∈ sampleDb.orders, r.vendor_id ≠ 3) ∧
    getOrdersByVendor sampleDb 3 true (fun _ => ⟨true, true, true⟩) =
      ⟨some [], none⟩ :=
  ⟨by decide,
   (c7_zero_orders_empty_list sampleDb 3 4 (fun _ => ⟨true, true, true⟩)
     (fun _ => ⟨true, true, true⟩)).1 (by decide)⟩

/-- C8: in the composite reads, when the top-level orders query succeeded,
the result is the full merged order list with a null error regardless of
the per-order sub-read outcomes, and a failed sub-read degrades that field
of that order to its default: empty list for items and messages, null for
the address; the order row itself is carried through unchanged. -/
theorem c8_subread_failure_degrades (db : Db) (v c : Nat) (sub : Nat → SubFlags) :
    (getOrdersByVendor db v true sub).error = none ∧
    (getOrdersByVendor db v true sub).data =
      some ((db.orders.filter (fun r => r.vendor_id = v)).map
        fun o => orderSubJoin db o (sub o.id)) ∧
    (getOrdersByCustomer db c true sub).error = none ∧
    (getOrdersByCustomer db c true sub).data =
      some ((db.orders.filter (fun r => r.customer_id = c)).map
        fun o => orderSubJoin db o (sub o.id)) ∧
    (∀ o f, f.itemsOk = false → (orderSubJoin db o f).order_items = []) ∧
    (∀ o f, f.messagesOk = false → (orderSubJoin db o f).order_messages = []) ∧
    (∀ o f, f.addressOk = false → (orderSubJoin db o f).address = none) ∧
    (∀ o f, (orderSubJoin db o f).row = o) := by
  refine ⟨?_, ?_, ?_, ?_, ?_, ?_, ?_, ?_⟩
  · rw [getOrdersByVendor_ok]
  · rw [getOrdersByVendor_ok]
  · rw [getOrdersByCustomer_ok]
  · rw [getOrdersByCustomer_ok]
  · intro o f h; simp [orderSubJoin, h]
  · intro o f h; simp [orderSubJoin, h]
  · intro o f h; simp [orderSubJoin, h]
  · intro o f; rfl

/-- C8 witness: concrete instance with one matching order whose three
sub-reads all fail — the read still returns the order, with the three
fields degraded to their defaults. -/
theorem c8_subread_failure_degrades_witness :
    (getOrdersByVendor sampleDb 7 true (fun _ => ⟨false, false, false⟩)).error =
      none ∧
    (getOrdersByVendor sampleDb 7 true (fun _ => ⟨false, false, false⟩)).data =
      some ((sampleDb.orders.filter (fun r => r.vendor_id = 7)).map
        fun o => orderSubJoin sampleDb o (⟨false, false, false⟩ : SubFlags)) ∧
    (orderSubJoin sampleDb sampleOrder ⟨false, false, false⟩).order_items = [] ∧
    (orderSubJoin sampleDb sampleOrder ⟨false, false, false⟩).order_messages = [] ∧
    (orderSubJoin sampleDb sampleOrder ⟨false, false, false⟩).address = none ∧
    (orderSubJoin sampleDb sampleOrder ⟨false, false, false⟩).row = sampleOrder := by
  have h := c8_subread_failure_degrades sampleDb 7 7 (fun _ => ⟨false, false, false⟩)
  exact ⟨h.1, h.2.1, h.2.2.2.2.1 sampleOrder _ rfl, h.2.2.2.2.2.1 sampleOrder _ rfl,
    h.2.2.2.2.2.2.1 sampleOrder _ rfl, h.2.2.2.2.2.2.2 sampleOrder _⟩

/-- C10: `updateOrderStatus` writes only the status column of the order
with the given id: the orders list keeps its length; every order row keeps
every field except `status`; the status of rows with a different id is
unchanged (the matching row's status becomes the supplied value); and all
other tables of the store are untouched. -/
theorem c10_updateOrderStatus_frame (db : Db) (id : Nat) (st : Status) :
    (updateOrderStatusDb db id st).orders.length = db.orders.length ∧
    (∀ i : Nat, i < db.orders.length →
      ∃ o o', db.orders[i]? = some o ∧
        (updateOrderStatusDb db id st).orders[i]? = some o' ∧
        o'.id = o.id ∧ o'.customer_id = o.customer_id ∧
        o'.customer_name = o.customer_name ∧
        o'.customer_phone = o.customer_phone ∧
        o'.customer_user_id = o.customer_user_id ∧
        o'.vendor_id = o.vendor_id ∧ o'.vendor_name = o.vendor_name ∧
        o'.area_id = o.area_id ∧ o'.address_id = o.address_id ∧
        o'.total = o.total ∧ o'.delivery_date = o.delivery_date ∧
        o'.preferred_time = o.preferred_time ∧ o'.invoice_id = o.invoice_id ∧
        o'.status = (if o.id = id then st else o.status)) ∧
    (updateOrderStatusDb db id st).orderItems = db.orderItems ∧
    (updateOrderStatusDb db id st).orderMessages = db.orderMessages ∧
    (updateOrderStatusDb db id st).inventory = db.inventory ∧
    (updateOrderStatusDb db id st).addresses = db.addresses ∧
    (updateOrderStatusDb db id st).users = db.users ∧
    (updateOrderStatusDb db id st).serviceAreas = db.serviceAreas := by
  refine ⟨by simp [updateOrderStatusDb], ?_, rfl, rfl, rfl, rfl, rfl, rfl⟩
  intro i hi
  refine ⟨db.orders[i],
    if db.orders[i].id = id then { db.orders[i] with status := st }
    else db.orders[i],
    List.getElem?_eq_getElem hi, ?_, ?_⟩
  · show (db.orders.map fun r => if r.id = id then { r with status := st } else r)[i]? = _
    rw [List.getElem?_map, List.getElem?_eq_getElem hi]
    rfl
  · by_cases h : db.orders[i].id = id <;> simp [h]

/-- C10 witness: the sample store, retargeting the stored order. -/
theorem c10_updateOrderStatus_frame_witness :
    (updateOrderStatusDb sampleDb 0 Status.confirmed).orders.length =
      sampleDb.orders.length ∧
    ∃ o o', sampleDb.orders[0]? = some o ∧
      (updateOrderStatusDb sampleDb 0 Status.confirmed).orders[0]? = some o' ∧
      o'.id = o.id ∧ o'.customer_id = o.customer_id ∧
      o'.customer_name = o.customer_name ∧
      o'.customer_phone = o.customer_phone ∧
      o'.customer_user_id = o.customer_user_id ∧
      o'.vendor_id = o.vendor_id ∧ o'.vendor_name = o.vendor_name ∧
      o'.area_id = o.area_id ∧ o'.address_id = o.address_id ∧
      o'.total = o.total ∧ o'.delivery_date = o.delivery_date ∧
      o'.preferred_time = o.preferred_time ∧ o'.invoice_id = o.invoice_id ∧
      o'.status = (if o.id = 0 then Status.confirmed else o.status) := by
  have h := c10_updateOrderStatus_frame sampleDb 0 Status.confirmed
  exact ⟨h.1, h.2.1 0 (by decide)⟩

/-- C5 counterexample: `getCurrentUser` is one of the access functions the
claim ranges over, yet it does not return a `{ data, error }` pair.  In
the earlier revision (`src/unnamed/part_001`) it has no `try`/`catch`, so
a thrown gateway failure propagates past its boundary (modelled as
`Except.error`) — as do the revision's `signUp`, `signIn` and `signOut` —
while in the current revision it swallows the same failure into a bare
`null` carrying no populated error field, the same value a successful call
with no session returns.  Additionally, the default-clearing pre-write of
`createAddress` has its returned error ignored: when it fails with a
returned error and the main insert succeeds, the call reports success. -/
theorem c5_getCurrentUser_counterexample :
    getCurrentUserLegacy (GwOutcome.thrown gwErr) = Except.error gwErr ∧
    getCurrentUser (GwOutcome.thrown gwErr) = none ∧
    getCurrentUser (GwOutcome.ok none) = none ∧
    signUpLegacy (GwOutcome.thrown gwErr) = Except.error gwErr ∧
    signInLegacy (GwOutcome.thrown gwErr) = Except.error gwErr ∧
    signOutLegacy (GwOutcome.thrown gwErr) = Except.error gwErr ∧
    createAddressResult (GwOutcome.err gwErr)
      (GwOutcome.ok ⟨0, 2, "Home", "s", "c", "st", "z", true, none⟩) =
      ⟨some ⟨0, 2, "Home", "s", "c", "st", "z", true, none⟩, none⟩ :=
  ⟨rfl, rfl, rfl, rfl, rfl, rfl, rfl⟩

/-- C5 (amended): every domain access function of the current revision
other than `getCurrentUser` returns a result carrying an error field —
`{ data, error }` for the creates, reads and updates, `{ error }` for the
deletes and `signOut` — and never throws past its boundary: every failure
of an underlying remote call, thrown or returned, terminates the function
normally with null data and a populated error.  The two qualifications
the code imposes: inside the composite reads a failed per-order sub-read
degrades that order's field instead of populating the top-level error
(the top-level orders query failing does populate it), and the
default-address pre-writes have their returned errors ignored, so only
their thrown failures surface. -/
theorem c5_entity_access_surfaces_errors (e : Nat) (db : Db) (v c : Nat)
    (sub : Nat → SubFlags) (o : OrderInput) (b : Bool) :
    -- auth wrappers (current revision)
    (signUpResult (GwOutcome.thrown e) = ⟨none, some e⟩ ∧
     signUpResult (GwOutcome.err e) = ⟨none, some e⟩ ∧
     signInResult (GwOutcome.thrown e) = ⟨none, some e⟩ ∧
     signInResult (GwOutcome.err e) = ⟨none, some e⟩ ∧
     signOutResult (GwOutcome.thrown e) = ⟨some e⟩ ∧
     signOutResult (GwOutcome.err e) = ⟨some e⟩) ∧
    -- users
    (createUserResult (GwOutcome.thrown e) = ⟨none, some e⟩ ∧
     createUserResult (GwOutcome.err e) = ⟨none, some e⟩ ∧
     getUserByUserIdResult (GwOutcome.thrown e) = ⟨none, some e⟩ ∧
     getUserByUserIdResult (GwOutcome.err e) = ⟨none, some e⟩ ∧
     updateUserResult (GwOutcome.thrown e) = ⟨none, some e⟩ ∧
     updateUserResult (GwOutcome.err e) = ⟨none, some e⟩ ∧
     deleteUserResult (GwOutcome.thrown e) = ⟨some e⟩ ∧
     deleteUserResult (GwOutcome.err e) = ⟨some e⟩) ∧
    -- service areas
    (getServiceAreasResult (GwOutcome.thrown e) = ⟨none, some e⟩ ∧
     getServiceAreasResult (GwOutcome.err e) = ⟨none, some e⟩ ∧
     createServiceAreaResult (GwOutcome.thrown e) = ⟨none, some e⟩ ∧
     createServiceAreaResult (GwOutcome.err e) = ⟨none, some e⟩ ∧
     updateServiceAreaResult (GwOutcome.thrown e) = ⟨none, some e⟩ ∧
     updateServiceAreaResult (GwOutcome.err e) = ⟨none, some e⟩ ∧
     deleteServiceAreaResult (GwOutcome.thrown e) = ⟨some e⟩ ∧
     deleteServiceAreaResult (GwOutcome.err e) = ⟨some e⟩) ∧
    -- addresses
    (getUserAddressesResult (GwOutcome.thrown e) = ⟨none, some e⟩ ∧
     getUserAddressesResult (GwOutcome.err e) = ⟨none, some e⟩ ∧
     (∀ outInsert, createAddressResult (GwOutcome.thrown e) outInsert =
       ⟨none, some e⟩) ∧
     createAddressResult (GwOutcome.ok ()) (GwOutcome.thrown e) = ⟨none, some e⟩ ∧
     createAddressResult (GwOutcome.ok ()) (GwOutcome.err e) = ⟨none, some e⟩ ∧
     (∀ outClear outUpdate, updateAddressResult (GwOutcome.thrown e)
       outClear outUpdate = ⟨none, some e⟩) ∧
     (∀ outUpdate, updateAddressResult (GwOutcome.ok ()) (GwOutcome.thrown e)
       outUpdate = ⟨none, some e⟩) ∧
     updateAddressResult (GwOutcome.ok ()) (GwOutcome.ok ())
       (GwOutcome.thrown e) = ⟨none, some e⟩ ∧
     updateAddressResult (GwOutcome.ok ()) (GwOutcome.ok ())
       (GwOutcome.err e) = ⟨none, some e⟩ ∧
     deleteAddressResult (GwOutcome.thrown e) = ⟨some e⟩ ∧
     deleteAddressResult (GwOutcome.err e) = ⟨some e⟩) ∧
    -- inventory
    (getInventoryByVendorResult (GwOutcome.thrown e) = ⟨none, some e⟩ ∧
     getInventoryByVendorResult (GwOutcome.err e) = ⟨none, some e⟩ ∧
     (∀ outInv, getInventoryByAreaResult (GwOutcome.thrown e) outInv =
       ⟨none, some e⟩) ∧
     (∀ outInv, getInventoryByAreaResult (GwOutcome.err e) outInv =
       ⟨none, some e⟩) ∧
     getInventoryByAreaResult (GwOutcome.ok v) (GwOutcome.thrown e) =
       ⟨none, some e⟩ ∧
     getInventoryByAreaResult (GwOutcome.ok v) (GwOutcome.err e) =
       ⟨none, some e⟩ ∧
     createInventoryItemResult (GwOutcome.thrown e) = ⟨none, some e⟩ ∧
     createInventoryItemResult (GwOutcome.err e) = ⟨none, some e⟩ ∧
     updateInventoryItemResult (GwOutcome.thrown e) = ⟨none, some e⟩ ∧
     updateInventoryItemResult (GwOutcome.err e) = ⟨none, some e⟩ ∧
     deleteInventoryItemResult (GwOutcome.thrown e) = ⟨some e⟩ ∧
     deleteInventoryItemResult (GwOutcome.err e) = ⟨some e⟩) ∧
    -- orders
    (getOrdersByVendor db v false sub = ⟨none, some gwErr⟩ ∧
     getOrdersByCustomer db c false sub = ⟨none, some gwErr⟩ ∧
     (createOrder db o false b).1 = ⟨none, some gwErr⟩ ∧
     (createOrder db o false b).2 = db ∧
     (o.items ≠ [] → (createOrder db o true false).1 = ⟨none, some gwErr⟩) ∧
     updateOrderStatusResult (GwOutcome.thrown e) = ⟨none, some e⟩ ∧
     updateOrderStatusResult (GwOutcome.err e) = ⟨none, some e⟩ ∧
     updateOrderInvoiceIdResult (GwOutcome.thrown e) = ⟨none, some e⟩ ∧
     updateOrderInvoiceIdResult (GwOutcome.err e) = ⟨none, some e⟩) ∧
    -- messages
    (createOrderMessageResult (GwOutcome.thrown e) = ⟨none, some e⟩ ∧
     createOrderMessageResult (GwOutcome.err e) = ⟨none, some e⟩) ∧
    -- invoices
    (getInvoicesByVendorResult (GwOutcome.thrown e) = ⟨none, some e⟩ ∧
     getInvoicesByVendorResult (GwOutcome.err e) = ⟨none, some e⟩ ∧
     createInvoiceResult (GwOutcome.thrown e) = ⟨none, some e⟩ ∧
     createInvoiceResult (GwOutcome.err e) = ⟨none, some e⟩ ∧
     updateInvoiceStatusResult (GwOutcome.thrown e) = ⟨none, some e⟩ ∧
     updateInvoiceStatusResult (GwOutcome.err e) = ⟨none, some e⟩) := by
  refine ⟨⟨rfl, rfl, rfl, rfl, rfl, rfl⟩,
    ⟨rfl, rfl, rfl, rfl, rfl, rfl, rfl, rfl⟩,
    ⟨rfl, rfl, rfl, rfl, rfl, rfl, rfl, rfl⟩,
    ⟨rfl, rfl, fun _ => rfl, rfl, rfl, fun _ _ => rfl, fun _ => rfl, rfl, rfl,
     rfl, rfl⟩,
    ⟨rfl, rfl, fun _ => rfl, fun _ => rfl, rfl, rfl, rfl, rfl, rfl, rfl, rfl,
     rfl⟩,
    ⟨rfl, rfl, rfl, rfl, ?_, rfl, rfl, rfl, rfl⟩,
    ⟨rfl, rfl⟩,
    ⟨rfl, rfl, rfl, rfl, rfl, rfl⟩⟩
  intro hne
  have hempty : o.items.isEmpty = false := by
    cases h : o.items with
    | nil => exact absurd h hne
    | cons _ _ => rfl
  simp [createOrder, hempty]

/-- C5 witness for the amended theorem: concrete failing calls — a failed
items insert after a successful order insert, a failed top-level orders
query, a thrown delete, and a failed address insert — each surfacing a
populated error. -/
theorem c5_entity_access_surfaces_errors_witness :
    ([(⟨1, "Can", 2, 20⟩ : CartItem)] ≠ []) ∧
    (createOrder sampleDb
      { customerId := 5, customerName := "c", customerPhone := "p"
      , customerUserId := "u", vendorId := 7, vendorName := ""
      , areaId := none, addressId := 0, total := 40
      , deliveryDate := "d", preferredTime := "t"
      , items := [⟨1, "Can", 2, 20⟩] } true false).1 = ⟨none, some gwErr⟩ ∧
    getOrdersByVendor sampleDb 3 false (fun _ => ⟨true, true, true⟩) =
      ⟨none, some gwErr⟩ ∧
    deleteUserResult (GwOutcome.thrown gwErr) = ⟨some gwErr⟩ ∧
    createAddressResult (GwOutcome.ok ()) (GwOutcome.err gwErr) =
      ⟨none, some gwErr⟩ := by
  have h := c5_entity_access_surfaces_errors gwErr sampleDb 3 4
    (fun _ => ⟨true, true, true⟩)
    { customerId := 5, customerName := "c", customerPhone := "p"
    , customerUserId := "u", vendorId := 7, vendorName := ""
    , areaId := none, addressId := 0, total := 40
    , deliveryDate := "d", preferredTime := "t"
    , items := [⟨1, "Can", 2, 20⟩] } true
  exact ⟨by decide, h.2.2.2.2.2.1.2.2.2.2.1 (by decide), h.2.2.2.2.2.1.1,
    h.2.1.2.2.2.2.2.2.1, h.2.2.2.1.2.2.2.2.1⟩

/-- C6: in every partial update, a field absent from the input is not part
of the applied write, so the stored value is retained — never overwritten
with null — across `updateUser`, `updateAddress`, `updateServiceArea` and
`updateInventoryItem`. -/
theorem c6_absent_fields_retained (uu : UserUpdates) (r : UserRow)
    (ua : AddressUpdates) (a : AddressRow)
    (us : ServiceAreaUpdates) (s : ServiceAreaRow)
    (ui : InventoryUpdates) (it : InventoryItemRow) :
    (uu.name = none → (applyUserUpdates uu r).name = r.name) ∧
    (uu.phone = none → (applyUserUpdates uu r).phone = r.phone) ∧
    (uu.areaId = none → (applyUserUpdates uu r).area_id = r.area_id) ∧
    (uu.serviceArea = none →
      (applyUserUpdates uu r).service_area = r.service_area) ∧
    (ua.label = none → (applyAddressUpdates ua a).label = a.label) ∧
    (ua.street = none → (applyAddressUpdates ua a).street = a.street) ∧
    (ua.city = none → (applyAddressUpdates ua a).city = a.city) ∧
    (ua.state = none → (applyAddressUpdates ua a).state = a.state) ∧
    (ua.zipCode = none → (applyAddressUpdates ua a).zip_code = a.zip_code) ∧
    (ua.isDefault = none → (applyAddressUpdates ua a).is_default = a.is_default) ∧
    (ua.areaId = none → (applyAddressUpdates ua a).area_id = a.area_id) ∧
    (us.name = none → (applyServiceAreaUpdates us s).name = s.name) ∧
    (us.vendorId = none → (applyServiceAreaUpdates us s).vendor_id = s.vendor_id) ∧
    (us.vendorName = none →
      (applyServiceAreaUpdates us s).vendor_name = s.vendor_name) ∧
    (ui.name = none → (applyInventoryUpdates ui it).name = it.name) ∧
    (ui.price = none → (applyInventoryUpdates ui it).price = it.price) ∧
    (ui.stock = none → (applyInventoryUpdates ui it).stock = it.stock) ∧
    (ui.description = none →
      (applyInventoryUpdates ui it).description = it.description) := by
  refine ⟨?_, ?_, ?_, ?_, ?_, ?_, ?_, ?_, ?_, ?_, ?_, ?_, ?_, ?_, ?_, ?_, ?_, ?_⟩ <;>
    (intro h;
     simp [applyUserUpdates, applyAddressUpdates, applyServiceAreaUpdates,
       applyInventoryUpdates, h])

/-- C6 witness: the all-absent update leaves a concrete row of each entity
unchanged in every field. -/
theorem c6_absent_fields_retained_witness :
    ((⟨none, none, none, none⟩ : UserUpdates).name = none →
      (applyUserUpdates ⟨none, none, none, none⟩
        ⟨2, "u1", "n", "p", "customer", none, "sa"⟩).name = "n") ∧
    ((⟨none, none, none, none, none, none, none⟩ : AddressUpdates).label = none →
      (applyAddressUpdates ⟨none, none, none, none, none, none, none⟩
        ⟨3, 2, "Home", "st", "ci", "sta", "z", true, none⟩).label = "Home") ∧
    ((⟨none, none, none⟩ : ServiceAreaUpdates).name = none →
      (applyServiceAreaUpdates ⟨none, none, none⟩
        ⟨4, "area", 7, "v"⟩).name = "area") ∧
    ((⟨none, none, none, none⟩ : InventoryUpdates).stock = none →
      (applyInventoryUpdates ⟨none, none, none, none⟩ sampleItem).stock = 3) := by
  have h := c6_absent_fields_retained
    ⟨none, none, none, none⟩ ⟨2, "u1", "n", "p", "customer", none, "sa"⟩
    ⟨none, none, none, none, none, none, none⟩
    ⟨3, 2, "Home", "st", "ci", "sta", "z", true, none⟩
    ⟨none, none, none⟩ ⟨4, "area", 7, "v"⟩
    ⟨none, none, none, none⟩ sampleItem
  exact ⟨fun _ => h.1 rfl, fun _ => h.2.2.2.2.1 rfl, fun _ => h.2.2.2.2.2.2.2.2.2.2.2.1 rfl,
    fun _ => h.2.2.2.2.2.2.2.2.2.2.2.2.2.2.2.2.1 rfl⟩

/-- `updateInventoryItem` writes only the inventory table; a sequence of
such calls leaves the order-items table untouched. -/
lemma applyInventoryOps_orderItems (db : Db) (ops : List (Nat × InventoryUpdates)) :
    (applyInventoryOps db ops).orderItems = db.orderItems := by
  induction ops generalizing db with
  | nil => rfl
  | cons p t ih => exact (ih (updateInventoryItemDb db p.1 p.2)).trans rfl

/-- C3: a successful `createOrder` call with N input line items leaves
exactly N order-item rows for the created order, each row's price equal to
the price carried in the corresponding input item, and any later sequence
of `updateInventoryItem` calls (price changes included) leaves those rows
untouched. -/
theorem c3_createOrder_snapshot (db : Db) (o : OrderInput)
    (invOps : List (Nat × InventoryUpdates))
    (hfresh : ∀ r ∈ db.orderItems, r.order_id ≠ db.nextId) :
    (createOrder db o true true).1.error = none ∧
    ∃ row, (createOrder db o true true).1.data = some row ∧
      ((createOrder db o true true).2.orderItems.filter
        (fun r => r.order_id = row.id)).length = o.items.length ∧
      ((createOrder db o true true).2.orderItems.filter
        (fun r => r.order_id = row.id)).map (fun r => r.price) =
        o.items.map (fun it => it.price) ∧
      (applyInventoryOps (createOrder db o true true).2 invOps).orderItems.filter
        (fun r => r.order_id = row.id) =
        (createOrder db o true true).2.orderItems.filter
          (fun r => r.order_id = row.id) := by
  have hcomp : createOrder db o true true =
      (⟨some (createdOrderRow db o), none⟩,
       { db with
         orders := db.orders ++ [createdOrderRow db o],
         orderItems := db.orderItems ++ createdOrderItemRows db o,
         nextId := db.nextId + 1 }) := by
    by_cases hempty : o.items.isEmpty
    · have : o.items = [] := List.isEmpty_iff.mp hempty
      simp [createOrder, createdOrderItemRows, hempty, this]
    · simp [createOrder, hempty]
  have hfil : db.orderItems.filter
      (fun r => decide (r.order_id = (createdOrderRow db o).id)) = [] :=
    List.filter_eq_nil_iff.mpr (fun r hr => by
      simpa [createdOrderRow] using hfresh r hr)
  have hkeep : (createdOrderItemRows db o).filter
      (fun r => decide (r.order_id = (createdOrderRow db o).id)) =
      createdOrderItemRows db o :=
    List.filter_eq_self.mpr (by
      intro r hr
      rcases List.mem_map.mp hr with ⟨it, _, rfl⟩
      simp [createdOrderRow])
  rw [hcomp]
  refine ⟨rfl, createdOrderRow db o, rfl, ?_, ?_,
    by rw [applyInventoryOps_orderItems]⟩
  · show (List.filter _ (db.orderItems ++ createdOrderItemRows db o)).length = _
    rw [List.filter_append, hfil, hkeep]
    simp [createdOrderItemRows]
  · show List.map _ (List.filter _ (db.orderItems ++ createdOrderItemRows db o)) = _
    rw [List.filter_append, hfil, hkeep]
    simp [createdOrderItemRows, List.map_map, Function.comp]

/-- C3 witness: creating an order with two line items in the sample store,
then raising the inventory item's price, leaves the two snapshot rows with
their original prices. -/
theorem c3_createOrder_snapshot_witness :
    (∀ r ∈ sampleDb.orderItems, r.order_id ≠ sampleDb.nextId) ∧
    ((createOrder sampleDb
        { customerId := 5, customerName := "c", customerPhone := "p"
        , customerUserId := "u", vendorId := 7, vendorName := ""
        , areaId := none, addressId := 0, total := 70
        , deliveryDate := "d", preferredTime := "t"
        , items := [⟨1, "Can", 2, 20⟩, ⟨2, "Jar", 1, 30⟩] }
        true true).1.error = none ∧
     ∃ row, (createOrder sampleDb
        { customerId := 5, customerName := "c", customerPhone := "p"
        , customerUserId := "u", vendorId := 7, vendorName := ""
        , areaId := none, addressId := 0, total := 70
        , deliveryDate := "d", preferredTime := "t"
        , items := [⟨1, "Can", 2, 20⟩, ⟨2, "Jar", 1, 30⟩] }
        true true).1.data = some row ∧
      ((createOrder sampleDb
        { customerId := 5, customerName := "c", customerPhone := "p"
        , customerUserId := "u", vendorId := 7, vendorName := ""
        , areaId := none, addressId := 0, total := 70
        , deliveryDate := "d", preferredTime := "t"
        , items := [⟨1, "Can", 2, 20⟩, ⟨2, "Jar", 1, 30⟩] }
        true true).2.orderItems.filter
          (fun r => r.order_id = row.id)).length = 2 ∧
      ((createOrder sampleDb
        { customerId := 5, customerName := "c", customerPhone := "p"
        , customerUserId := "u", vendorId := 7, vendorName := ""
        , areaId := none, addressId := 0, total := 70
        , deliveryDate := "d", preferredTime := "t"
        , items := [⟨1, "Can", 2, 20⟩, ⟨2, "Jar", 1, 30⟩] }
        true true).2.orderItems.filter
          (fun r => r.order_id = row.id)).map (fun r => r.price) = [20, 30] ∧
      (applyInventoryOps (createOrder sampleDb
        { customerId := 5, customerName := "c", customerPhone := "p"
        , customerUserId := "u", vendorId := 7, vendorName := ""
        , areaId := none, addressId := 0, total := 70
        , deliveryDate := "d", preferredTime := "t"
        , items := [⟨1, "Can", 2, 20⟩, ⟨2, "Jar", 1, 30⟩] }
        true true).2 [(1, ⟨none, some 99, none, none⟩)]).orderItems.filter
          (fun r => r.order_id = row.id) =
        (createOrder sampleDb
        { customerId := 5, customerName := "c", customerPhone := "p"
        , customerUserId := "u", vendorId := 7, vendorName := ""
        , areaId := none, addressId := 0, total := 70
        , deliveryDate := "d", preferredTime := "t"
        , items := [⟨1, "Can", 2, 20⟩, ⟨2, "Jar", 1, 30⟩] }
        true true).2.orderItems.filter (fun r => r.order_id = row.id)) := by
  have h := c3_createOrder_snapshot sampleDb
    { customerId := 5, customerName := "c", customerPhone := "p"
    , customerUserId := "u", vendorId := 7, vendorName := ""
    , areaId := none, addressId := 0, total := 70
    , deliveryDate := "d", preferredTime := "t"
    , items := [⟨1, "Can", 2, 20⟩, ⟨2, "Jar", 1, 30⟩] }
    [(1, ⟨none, some 99, none, none⟩)] (by decide)
  exact ⟨by decide, h⟩

/-- C4: when the order-row insert succeeds but the item insert fails,
`createOrder` returns an error result with null data — yet the
already-inserted order row remains persisted (no compensating rollback
deletes it). -/
theorem c4_no_rollback_on_item_failure (db : Db) (o : OrderInput)
    (hne : o.items ≠ []) :
    (createOrder db o true false).1.data = none ∧
    (createOrder db o true false).1.error = some gwErr ∧
    ∃ row, (createOrder db o true false).2.orders = db.orders ++ [row] ∧
      row.id = db.nextId ∧ row.status = Status.pending := by
  have hempty : o.items.isEmpty = false := by
    cases h : o.items with
    | nil => exact absurd h hne
    | cons _ _ => rfl
  refine ⟨?_, ?_, ?_⟩ <;> simp [createOrder, createdOrderRow, hempty]

/-- C4 witness: a concrete failed item insert leaves the order row in the
store and surfaces the error. -/
theorem c4_no_rollback_on_item_failure_witness :
    ([(⟨1, "Can", 2, 20⟩ : CartItem)] ≠ []) ∧
    ((createOrder sampleDb
        { customerId := 5, customerName := "c", customerPhone := "p"
        , customerUserId := "u", vendorId := 7, vendorName := ""
        , areaId := none, addressId := 0, total := 40
        , deliveryDate := "d", preferredTime := "t"
        , items := [⟨1, "Can", 2, 20⟩] } true false).1.data = none ∧
     (createOrder sampleDb
        { customerId := 5, customerName := "c", customerPhone := "p"
        , customerUserId := "u", vendorId := 7, vendorName := ""
        , areaId := none, addressId := 0, total := 40
        , deliveryDate := "d", preferredTime := "t"
        , items := [⟨1, "Can", 2, 20⟩] } true false).1.error = some gwErr ∧
     ∃ row, (createOrder sampleDb
        { customerId := 5, customerName := "c", customerPhone := "p"
        , customerUserId := "u", vendorId := 7, vendorName := ""
        , areaId := none, addressId := 0, total := 40
        , deliveryDate := "d", preferredTime := "t"
        , items := [⟨1, "Can", 2, 20⟩] } true false).2.orders =
          sampleDb.orders ++ [row] ∧
       row.id = sampleDb.nextId ∧ row.status = Status.pending) :=
  ⟨by decide,
   c4_no_rollback_on_item_failure sampleDb
     { customerId := 5, customerName := "c", customerPhone := "p"
     , customerUserId := "u", vendorId := 7, vendorName := ""
     , areaId := none, addressId := 0, total := 40
     , deliveryDate := "d", preferredTime := "t"
     , items := [⟨1, "Can", 2, 20⟩] } (by decide)⟩

/-- One clamped decrement step keeps every stock non-negative: a touched
item's new stock is `max 0 _`, an untouched item keeps its old stock. -/
lemma decrementStep_nonneg (inv : List InventoryItemRow) (oi : OrderItemRow)
    (h : ∀ it ∈ inv, 0 ≤ it.stock) :
    ∀ it ∈ inv.map (fun it =>
      if it.id = oi.inventory_item_id then
        { it with stock := max 0 (it.stock - oi.quantity) }
      else it), 0 ≤ it.stock := by
  intro it hit
  rcases List.mem_map.mp hit with ⟨it₀, h₀, rfl⟩
  by_cases hid : it₀.id = oi.inventory_item_id
  · simp [hid]
  · simp [hid]
    exact h it₀ h₀

/-- The fold of clamped decrements over any list of order items keeps
every stock non-negative. -/
lemma foldDecrement_nonneg (items : List OrderItemRow)
    (inv : List InventoryItemRow) (h : ∀ it ∈ inv, 0 ≤ it.stock) :
    ∀ it ∈ items.foldl
      (fun inv oi =>
        inv.map fun it =>
          if it.id = oi.inventory_item_id then
            { it with stock := max 0 (it.stock - oi.quantity) }
          else it)
      inv, 0 ≤ it.stock := by
  induction items generalizing inv with
  | nil => exact h
  | cons oi t ih => exact ih _ (decrementStep_nonneg inv oi h)

/-- One status transition keeps every stock non-negative. -/
lemma applyStatusTransition_nonneg (db : Db) (oid : Nat) (st : Status)
    (h : ∀ it ∈ db.inventory, 0 ≤ it.stock) :
    ∀ it ∈ (applyStatusTransition db oid st).inventory, 0 ≤ it.stock := by
  unfold applyStatusTransition
  by_cases hst : st = Status.delivered
  · simp only [hst, if_pos rfl]
    exact foldDecrement_nonneg _ _ h
  · simp only [if_neg hst]
    exact h

/-- C1: starting from any store whose stocks are all non-negative, after
any sequence of status transitions every inventory item's stock is still
non-negative — the transition to `delivered` clamps each decrement at zero
(`max 0 (stock - quantity)`) even when the quantity exceeds the current
stock — and a transition to any status other than `delivered` leaves the
inventory untouched. -/
theorem c1_delivered_clamps_stock_nonneg (db : Db)
    (hinv : ∀ it ∈ db.inventory, 0 ≤ it.stock) (ts : List (Nat × Status)) :
    (∀ it ∈ (applyStatusTransitions db ts).inventory, 0 ≤ it.stock) ∧
    (∀ oid st, st ≠ Status.delivered →
      (applyStatusTransition db oid st).inventory = db.inventory) := by
  constructor
  · unfold applyStatusTransitions
    induction ts generalizing db with
    | nil => exact hinv
    | cons t rest ih =>
        exact ih _ (applyStatusTransition_nonneg db t.1 t.2 hinv)
  · intro oid st hst
    unfold applyStatusTransition
    simp [if_neg hst, updateOrderStatusDb]

/-- C1 witness: an order for 4 cans against stock 3; delivering twice
(duplicate transition) clamps the stock at 0 instead of driving it
negative, and a `confirmed` transition leaves inventory untouched. -/
theorem c1_delivered_clamps_stock_nonneg_witness :
    (∀ it ∈ ({ sampleDb with
        inventory := [sampleItem],
        orderItems := [ { order_id := 0, inventory_item_id := 1
                        , name := "Can", quantity := 4, price := 20 } ] } : Db).inventory,
      0 ≤ it.stock) ∧
    ((∀ it ∈ (applyStatusTransitions
        { sampleDb with
          inventory := [sampleItem],
          orderItems := [ { order_id := 0, inventory_item_id := 1
                          , name := "Can", quantity := 4, price := 20 } ] }
        [(0, Status.delivered), (0, Status.delivered)]).inventory, 0 ≤ it.stock) ∧
     (∀ oid st, st ≠ Status.delivered →
       (applyStatusTransition
         { sampleDb with
           inventory := [sampleItem],
           orderItems := [ { order_id := 0, inventory_item_id := 1
                           , name := "Can", quantity := 4, price := 20 } ] }
         oid st).inventory =
         ({ sampleDb with
            inventory := [sampleItem],
            orderItems := [ { order_id := 0, inventory_item_id := 1
                            , name := "Can", quantity := 4, price := 20 } ] } : Db).inventory)) :=
  ⟨by decide,
   c1_delivered_clamps_stock_nonneg
     { sampleDb with
       inventory := [sampleItem],
       orderItems := [ { order_id := 0, inventory_item_id := 1
                       , name := "Can", quantity := 4, price := 20 } ] }
     (by decide) [(0, Status.delivered), (0, Status.delivered)]⟩

/-- Bumping or setting a quantity does not change the sequence of entry
ids. -/
lemma cart_map_ids_congr (cart : List CartItem) (g : CartItem → CartItem)
    (h : ∀ c, (g c).id = c.id) :
    (cart.map g).map (fun c => c.id) = cart.map (fun c => c.id) := by
  rw [List.map_map]
  exact List.map_congr_left (fun c _ => h c)

/-- One cart action preserves the cart invariant (for actions the
component can issue: added items come from the loaded inventory). -/
lemma cartInv_step (inventory : List InventoryItemRow)
    (hstock : ∀ it ∈ inventory, 0 ≤ it.stock)
    (hnodup : (inventory.map (fun it => it.id)).Nodup)
    (cart : List CartItem) (op : CartOp)
    (hop : CartOpOk inventory op) (hinv : CartInv inventory cart) :
    CartInv inventory (applyCartOp inventory cart op) := by
  obtain ⟨hent, hids⟩ := hinv
  cases op with
  | add item =>
    show CartInv inventory (addToCart cart item)
    unfold addToCart
    by_cases hz : item.stock = 0
    · rw [if_pos hz]; exact ⟨hent, hids⟩
    · rw [if_neg hz]
      cases hfind : cart.find? (fun c => c.id = item.id) with
      | none =>
        have hnotin : ∀ c ∈ cart, ¬(c.id = item.id) := by
          intro c hc
          have := List.find?_eq_none.mp hfind c hc
          simpa using this
        constructor
        · intro c hc
          rcases List.mem_append.mp hc with hc | hc
          · exact hent c hc
          · have hc : c = { id := item.id, name := item.name, quantity := 1
                          , price := item.price } := by simpa using hc
            subst hc
            refine ⟨le_refl 1, ⟨item, hop, rfl⟩, ?_⟩
            intro it hit hid
            have hit_eq : it = item :=
              List.inj_on_of_nodup_map hnodup hit hop (by simpa using hid)
            subst hit_eq
            have h0 : 0 ≤ it.stock := hstock it hit
            show (1 : Int) ≤ it.stock
            omega
        · rw [List.map_append, List.nodup_append]
          refine ⟨hids, by simp, ?_⟩
          intro a ha hb
          have hb : a = item.id := by simpa using hb
          subst hb
          rcases List.mem_map.mp ha with ⟨c, hc, hcid⟩
          exact hnotin c hc hcid
      | some existing =>
        dsimp only
        by_cases hlt : existing.quantity < item.stock
        · rw [if_pos hlt]
          have hexist_mem : existing ∈ cart := List.mem_of_find?_eq_some hfind
          have hexist_id : existing.id = item.id := by
            simpa using List.find?_some hfind
          constructor
          · intro c hc
            rcases List.mem_map.mp hc with ⟨c₀, h₀, rfl⟩
            by_cases hcid : c₀.id = item.id
            · rw [if_pos hcid]
              obtain ⟨hq1, hex, _⟩ := hent c₀ h₀
              have hc₀ : c₀ = existing :=
                List.inj_on_of_nodup_map hids h₀ hexist_mem
                  (by rw [hcid, hexist_id])
              refine ⟨by dsimp only; omega, hex, ?_⟩
              intro it hit hid
              have hit_eq : it = item :=
                List.inj_on_of_nodup_map hnodup hit hop (by rw [hid, hcid])
              subst hit_eq
              subst hc₀
              dsimp only
              omega
            · rw [if_neg hcid]
              exact hent c₀ h₀
          · rw [cart_map_ids_congr cart _ (fun c => by
              by_cases h : c.id = item.id <;> simp [h])]
            exact hids
        · rw [if_neg hlt]; exact ⟨hent, hids⟩
  | setQty itemId qty =>
    show CartInv inventory (updateCartQuantity inventory cart itemId qty)
    unfold updateCartQuantity
    cases hfind : inventory.find? (fun it => it.id = itemId) with
    | none => exact ⟨hent, hids⟩
    | some invItem =>
      dsimp only
      by_cases hq0 : qty ≤ 0
      · rw [if_pos hq0]
        constructor
        · intro c hc
          exact hent c (List.mem_of_mem_filter hc)
        · exact List.Nodup.sublist
            ((List.filter_sublist cart).map (fun c => c.id)) hids
      · rw [if_neg hq0]
        by_cases hqs : qty ≤ invItem.stock
        · rw [if_pos hqs]
          have hinvItem_mem : invItem ∈ inventory :=
            List.mem_of_find?_eq_some hfind
          have hinvItem_id : invItem.id = itemId := by
            simpa using List.find?_some hfind
          constructor
          · intro c hc
            rcases List.mem_map.mp hc with ⟨c₀, h₀, rfl⟩
            by_cases hcid : c₀.id = itemId
            · rw [if_pos hcid]
              obtain ⟨_, hex, _⟩ := hent c₀ h₀
              refine ⟨by dsimp only; omega, hex, ?_⟩
              intro it hit hid
              have hit_eq : it = invItem :=
                List.inj_on_of_nodup_map hnodup hit hinvItem_mem
                  (by rw [hid, hcid, hinvItem_id])
              subst hit_eq
              exact hqs
            · rw [if_neg hcid]
              exact hent c₀ h₀
          · rw [cart_map_ids_congr cart _ (fun c => by
              by_cases h : c.id = itemId <;> simp [h])]
            exact hids
        · rw [if_neg hqs]; exact ⟨hent, hids⟩

/-- Folding well-formed cart actions preserves the cart invariant. -/
lemma cartInv_ops (inventory : List InventoryItemRow)
    (hstock : ∀ it ∈ inventory, 0 ≤ it.stock)
    (hnodup : (inventory.map (fun it => it.id)).Nodup) :
    ∀ (ops : List CartOp) (cart : List CartItem),
      (∀ op ∈ ops, CartOpOk inventory op) → CartInv inventory cart →
      CartInv inventory (ops.foldl (applyCartOp inventory) cart) := by
  intro ops
  induction ops with
  | nil => exact fun cart _ h => h
  | cons op t ih =>
    intro cart hops hinv
    exact ih _ (fun o ho => hops o (List.mem_cons_of_mem _ ho))
      (cartInv_step inventory hstock hnodup cart op
        (hops op (List.mem_cons_self _ _)) hinv)

/-- One cart action at most appends its item's id at the back of the entry
sequence; it never reorders the existing entries. -/
lemma applyCartOp_ids_sublist (inventory : List InventoryItemRow)
    (cart : List CartItem) (op : CartOp) :
    ((applyCartOp inventory cart op).map (fun c => c.id)).Sublist
      (cart.map (fun c => c.id) ++ [cartOpId op]) := by
  cases op with
  | add item =>
    show ((addToCart cart item).map _).Sublist _
    unfold addToCart
    by_cases hz : item.stock = 0
    · rw [if_pos hz]; exact List.sublist_append_left _ _
    · rw [if_neg hz]
      cases hfind : cart.find? (fun c => c.id = item.id) with
      | none =>
        rw [List.map_append]
        exact List.Sublist.refl _
      | some existing =>
        dsimp only
        by_cases hlt : existing.quantity < item.stock
        · rw [if_pos hlt]
          rw [cart_map_ids_congr cart _ (fun c => by
            by_cases h : c.id = item.id <;> simp [h])]
          exact List.sublist_append_left _ _
        · rw [if_neg hlt]; exact List.sublist_append_left _ _
  | setQty itemId qty =>
    show ((updateCartQuantity inventory cart itemId qty).map _).Sublist _
    unfold updateCartQuantity
    cases hfind : inventory.find? (fun it => it.id = itemId) with
    | none => exact List.sublist_append_left _ _
    | some invItem =>
      dsimp only
      by_cases hq0 : qty ≤ 0
      · rw [if_pos hq0]
        exact ((List.filter_sublist cart).map (fun c => c.id)).trans
          (List.sublist_append_left _ _)
      · rw [if_neg hq0]
        by_cases hqs : qty ≤ invItem.stock
        · rw [if_pos hqs]
          rw [cart_map_ids_congr cart _ (fun c => by
            by_cases h : c.id = itemId <;> simp [h])]
          exact List.sublist_append_left _ _
        · rw [if_neg hqs]; exact List.sublist_append_left _ _

/-- C9: for every cart state reachable by a sequence of `addToCart` and
`updateCartQuantity` actions (added items drawn from the loaded
inventory), every entry's quantity is at least 1 and does not exceed the
corresponding inventory item's stock as loaded; there is at most one
entry per inventory item; and each further action at most appends its
item at the back, preserving insertion order. -/
theorem c9_cart_invariants (inventory : List InventoryItemRow)
    (hstock : ∀ it ∈ inventory, 0 ≤ it.stock)
    (hnodup : (inventory.map (fun it => it.id)).Nodup)
    (ops : List CartOp) (hops : ∀ op ∈ ops, CartOpOk inventory op) :
    (∀ c ∈ applyCartOps inventory ops, 1 ≤ c.quantity ∧
      (∃ it ∈ inventory, it.id = c.id) ∧
      ∀ it ∈ inventory, it.id = c.id → c.quantity ≤ it.stock) ∧
    ((applyCartOps inventory ops).map (fun c => c.id)).Nodup ∧
    (∀ op, ((applyCartOps inventory (ops ++ [op])).map (fun c => c.id)).Sublist
      ((applyCartOps inventory ops).map (fun c => c.id) ++ [cartOpId op])) := by
  have h := cartInv_ops inventory hstock hnodup ops []
    hops ⟨by simp, by simp⟩
  refine ⟨fun c hc => h.1 c hc, h.2, ?_⟩
  intro op
  unfold applyCartOps
  rw [List.foldl_append]
  exact applyCartOp_ids_sublist inventory _ op

/-- C9 witness: loaded inventory with one item of stock 3; adding it four
times then setting its quantity to 2 keeps the single entry within
bounds. -/
theorem c9_cart_invariants_witness :
    (∀ it ∈ [sampleItem], 0 ≤ it.stock) ∧
    (([sampleItem].map (fun it => it.id)).Nodup) ∧
    (∀ op ∈ [CartOp.add sampleItem, CartOp.add sampleItem, CartOp.add sampleItem,
             CartOp.add sampleItem, CartOp.setQty 1 2],
      CartOpOk [sampleItem] op) ∧
    ((∀ c ∈ applyCartOps [sampleItem]
        [CartOp.add sampleItem, CartOp.add sampleItem, CartOp.add sampleItem,
         CartOp.add sampleItem, CartOp.setQty 1 2], 1 ≤ c.quantity ∧
        (∃ it ∈ [sampleItem], it.id = c.id) ∧
        ∀ it ∈ [sampleItem], it.id = c.id → c.quantity ≤ it.stock) ∧
     ((applyCartOps [sampleItem]
        [CartOp.add sampleItem, CartOp.add sampleItem, CartOp.add sampleItem,
         CartOp.add sampleItem, CartOp.setQty 1 2]).map (fun c => c.id)).Nodup ∧
     (∀ op, ((applyCartOps [sampleItem]
        ([CartOp.add sampleItem, CartOp.add sampleItem, CartOp.add sampleItem,
          CartOp.add sampleItem, CartOp.setQty 1 2] ++ [op])).map
          (fun c => c.id)).Sublist
        ((applyCartOps [sampleItem]
          [CartOp.add sampleItem, CartOp.add sampleItem, CartOp.add sampleItem,
           CartOp.add sampleItem, CartOp.setQty 1 2]).map (fun c => c.id) ++
          [cartOpId op]))) :=
  ⟨by decide, by decide,
   by
     intro op hop
     simp only [List.mem_cons, List.not_mem_nil, or_false] at hop
     rcases hop with rfl | rfl | rfl | rfl | rfl <;> simp [CartOpOk],
   c9_cart_invariants [sampleItem] (by decide) (by decide)
     [CartOp.add sampleItem, CartOp.add sampleItem, CartOp.add sampleItem,
      CartOp.add sampleItem, CartOp.setQty 1 2]
     (by
       intro op hop
       simp only [List.mem_cons, List.not_mem_nil, or_false] at hop
       rcases hop with rfl | rfl | rfl | rfl | rfl <;> simp [CartOpOk])⟩

/-- `AddrRel` is symmetric. -/
lemma addrRel_symm : Symmetric AddrRel := by
  intro a b hab
  exact ⟨fun h => hab.1 h.symm, fun he hd => hab.2 he.symm ⟨hd.2, hd.1⟩⟩

/-- A row map that preserves ids and user ids and never turns the default
flag on preserves pairwise `AddrRel`. -/
lemma pairwise_addrRel_map (l : List AddressRow) (f : AddressRow → AddressRow)
    (hid : ∀ r, (f r).id = r.id) (huser : ∀ r, (f r).user_id = r.user_id)
    (hdef : ∀ r, (f r).is_default = true → r.is_default = true)
    (h : l.Pairwise AddrRel) : (l.map f).Pairwise AddrRel := by
  rw [List.pairwise_map]
  refine h.imp ?_
  intro a b hab
  refine ⟨?_, ?_⟩
  · rw [hid a, hid b]; exact hab.1
  · rw [huser a, huser b]
    intro he hd
    exact hab.2 he ⟨hdef a hd.1, hdef b hd.2⟩

/-- Clearing a user's defaults preserves pairwise `AddrRel`. -/
lemma clearUserDefaults_pairwise (uid : Nat) (l : List AddressRow)
    (h : l.Pairwise AddrRel) : (clearUserDefaults uid l).Pairwise AddrRel := by
  unfold clearUserDefaults
  refine pairwise_addrRel_map l _ ?_ ?_ ?_ h
  · intro r; by_cases hr : r.user_id = uid <;> simp [hr]
  · intro r; by_cases hr : r.user_id = uid <;> simp [hr]
  · intro r hr'
    by_cases hr : r.user_id = uid
    · rw [if_pos hr] at hr'; exact absurd hr' (by simp)
    · rw [if_neg hr] at hr'; exact hr'

/-- After the clearing write, no address of the targeted user is a
default. -/
lemma clearUserDefaults_cleared (uid : Nat) (l : List AddressRow) :
    ∀ r ∈ clearUserDefaults uid l, r.user_id = uid → r.is_default = false := by
  intro r hr huid
  rcases List.mem_map.mp hr with ⟨r₀, h₀, rfl⟩
  by_cases h : r₀.user_id = uid
  · simp [h]
  · rw [if_neg h] at huid
    exact absurd huid h

/-- Every row of the cleared list descends from a row of the original list
with the same id and user id. -/
lemma clearUserDefaults_ids (uid : Nat) (l : List AddressRow) :
    ∀ r ∈ clearUserDefaults uid l,
      ∃ r₀ ∈ l, r.id = r₀.id ∧ r.user_id = r₀.user_id := by
  intro r hr
  rcases List.mem_map.mp hr with ⟨r₀, h₀, rfl⟩
  refine ⟨r₀, h₀, ?_, ?_⟩ <;> by_cases h : r₀.user_id = uid <;> simp [h]

/-- Transporting an id bound through an id-preserving row map. -/
lemma ids_bound_map (l : List AddressRow) (g : AddressRow → AddressRow)
    (hid : ∀ r, (g r).id = r.id) (n : Nat) (h : ∀ r ∈ l, r.id < n) :
    ∀ r ∈ l.map g, r.id < n := by
  intro r hr
  rcases List.mem_map.mp hr with ⟨r₀, h₀, rfl⟩
  rw [hid]
  exact h r₀ h₀

/-- The id bound survives the clearing write. -/
lemma clearUserDefaults_lt (uid : Nat) (l : List AddressRow) (n : Nat)
    (h : ∀ r ∈ l, r.id < n) : ∀ r ∈ clearUserDefaults uid l, r.id < n := by
  intro r hr
  rcases clearUserDefaults_ids uid l r hr with ⟨r₀, h₀, hids_eq, _⟩
  rw [hids_eq]
  exact h r₀ h₀

/-- `createAddress` preserves the address invariant: when the new address
is a default, every other default of that user is cleared before the
insert; the inserted row gets a fresh id. -/
lemma addrInv_createAddress (db : Db) (a : AddressInput) (h : AddrInv db) :
    AddrInv (createAddress db a) := by
  obtain ⟨hpw, hlt⟩ := h
  unfold createAddress AddrInv
  dsimp only
  constructor
  · rw [List.pairwise_append]
    refine ⟨?_, List.pairwise_singleton _ _, ?_⟩
    · by_cases hd : a.isDefault = true
      · rw [if_pos hd]; exact clearUserDefaults_pairwise _ _ hpw
      · rw [if_neg hd]; exact hpw
    · intro r hr b hb
      have hb' : b = { id := db.nextId, user_id := a.userId, label := a.label
                     , street := a.street, city := a.city, state := a.state
                     , zip_code := a.zipCode, is_default := a.isDefault
                     , area_id := a.areaId } := by simpa using hb
      subst hb'
      constructor
      · show r.id ≠ db.nextId
        by_cases hd : a.isDefault = true
        · rw [if_pos hd] at hr
          rcases clearUserDefaults_ids _ _ r hr with ⟨r₀, h₀, hids_eq, _⟩
          rw [hids_eq]
          exact Nat.ne_of_lt (hlt r₀ h₀)
        · rw [if_neg hd] at hr
          exact Nat.ne_of_lt (hlt r hr)
      · intro huser hdd
        by_cases hd : a.isDefault = true
        · rw [if_pos hd] at hr
          have hcl := clearUserDefaults_cleared a.userId db.addresses r hr huser
          rw [hcl] at hdd
          exact absurd hdd.1 (by simp)
        · exact hd hdd.2
  · intro r hr
    rcases List.mem_append.mp hr with hr | hr
    · have hlt' : r.id < db.nextId := by
        by_cases hd : a.isDefault = true
        · rw [if_pos hd] at hr
          exact clearUserDefaults_lt _ _ _ hlt r hr
        · rw [if_neg hd] at hr
          exact hlt r hr
      exact Nat.lt_succ_of_lt hlt'
    · have hr' : r = { id := db.nextId, user_id := a.userId, label := a.label
                     , street := a.street, city := a.city, state := a.state
                     , zip_code := a.zipCode, is_default := a.isDefault
                     , area_id := a.areaId } := by simpa using hr
      subst hr'
      exact Nat.lt_succ_self _

/-- `updateAddress` preserves the address invariant. -/
lemma addrInv_updateAddress (db : Db) (id : Nat) (u : AddressUpdates)
    (h : AddrInv db) : AddrInv (updateAddress db id u) := by
  obtain ⟨hpw, hlt⟩ := h
  unfold updateAddress AddrInv
  dsimp only
  have hgid : ∀ r : AddressRow,
      ((if r.id = id then applyAddressUpdates u r else r) : AddressRow).id = r.id := by
    intro r
    by_cases hr : r.id = id <;> simp [hr, applyAddressUpdates]
  have hguser : ∀ r : AddressRow,
      ((if r.id = id then applyAddressUpdates u r else r) : AddressRow).user_id =
        r.user_id := by
    intro r
    by_cases hr : r.id = id <;> simp [hr, applyAddressUpdates]
  by_cases hdef : u.isDefault = some true
  · rw [if_pos hdef]
    cases hfind : db.addresses.find? (fun r => r.id = id) with
    | none =>
      dsimp only
      have hnone : ∀ r ∈ db.addresses, ¬(r.id = id) := by
        intro r hr
        have := List.find?_eq_none.mp hfind r hr
        simpa using this
      have hmap : db.addresses.map
          (fun r => if r.id = id then applyAddressUpdates u r else r) =
          db.addresses := by
        have := List.map_congr_left
          (f := fun r : AddressRow => if r.id = id then applyAddressUpdates u r else r)
          (g := fun r : AddressRow => r)
          (fun r hr => if_neg (hnone r hr))
        rw [this, List.map_id']
      rw [hmap]
      exact ⟨hpw, hlt⟩
    | some addr =>
      dsimp only
      have haddr_mem : addr ∈ db.addresses := List.mem_of_find?_eq_some hfind
      have haddr_id : addr.id = id := by simpa using List.find?_some hfind
      have hpw_pre := clearUserDefaults_pairwise addr.user_id db.addresses hpw
      have hforall := hpw.forall addrRel_symm
      have hid_user : ∀ r ∈ clearUserDefaults addr.user_id db.addresses,
          r.id = id → r.user_id = addr.user_id := by
        intro r hr hid2
        rcases clearUserDefaults_ids _ _ r hr with ⟨r₀, h₀, hids_eq, husers_eq⟩
        by_cases heq : r₀ = addr
        · rw [husers_eq, heq]
        · have hne := (hforall h₀ haddr_mem heq).1
          exact absurd ((hids_eq.symm.trans hid2).trans haddr_id.symm) hne
      constructor
      · rw [List.pairwise_map]
        refine hpw_pre.imp_of_mem ?_
        intro a b ha hb hab
        refine ⟨?_, ?_⟩
        · rw [hgid a, hgid b]; exact hab.1
        · rw [hguser a, hguser b]
          intro huser hdd
          by_cases hia : a.id = id
          · by_cases hib : b.id = id
            · exact hab.1 (hia.trans hib.symm)
            · rw [if_neg hib] at hdd
              have hbu : b.user_id = addr.user_id := by
                rw [← huser]; exact hid_user a ha hia
              have := clearUserDefaults_cleared addr.user_id db.addresses b hb hbu
              rw [this] at hdd
              exact absurd hdd.2 (by simp)
          · by_cases hib : b.id = id
            · rw [if_neg hia] at hdd
              have hau : a.user_id = addr.user_id := by
                rw [huser]; exact hid_user b hb hib
              have := clearUserDefaults_cleared addr.user_id db.addresses a ha hau
              rw [this] at hdd
              exact absurd hdd.1 (by simp)
            · rw [if_neg hia] at hdd
              rw [if_neg hib] at hdd
              exact hab.2 huser hdd
      · exact ids_bound_map _ _ hgid _ (clearUserDefaults_lt _ _ _ hlt)
  · rw [if_neg hdef]
    constructor
    · refine pairwise_addrRel_map _ _ hgid hguser ?_ hpw
      intro r hr'
      by_cases hr : r.id = id
      · rw [if_pos hr] at hr'
        rcases hu : u.isDefault with _ | b
        · rw [applyAddressUpdates] at hr'
          simp only [hu] at hr'
          exact hr'
        · rw [applyAddressUpdates] at hr'
          simp only [hu] at hr'
          exact absurd (hu.trans (by rw [hr'])) hdef
      · rw [if_neg hr] at hr'
        exact hr'
    · exact ids_bound_map _ _ hgid _ hlt

/-- Each address operation preserves the invariant. -/
lemma addrInv_op (db : Db) (op : AddressOp) (h : AddrInv db) :
    AddrInv (applyAddressOp db op) := by
  cases op with
  | create a => exact addrInv_createAddress db a h
  | update id u => exact addrInv_updateAddress db id u h

/-- A sequence of address operations preserves the invariant. -/
lemma addrInv_ops (db : Db) (ops : List AddressOp) (h : AddrInv db) :
    AddrInv (applyAddressOps db ops) := by
  unfold applyAddressOps
  induction ops generalizing db with
  | nil => exact h
  | cons op t ih => exact ih _ (addrInv_op db op h)

/-- C2: starting from a well-formed store, after any sequence of
`createAddress` and `updateAddress` calls executed without concurrent
interleaving, at most one address per user is a default: any two stored
addresses of the same user that are both default are the same address. -/
theorem c2_at_most_one_default_address (db : Db) (hinv : AddrInv db)
    (ops : List AddressOp) :
    ∀ a ∈ (applyAddressOps db ops).addresses,
      ∀ b ∈ (applyAddressOps db ops).addresses,
        a.user_id = b.user_id → a.is_default = true → b.is_default = true →
          a = b := by
  have h := (addrInv_ops db ops hinv).1
  intro a ha b hb huser hadef hbdef
  by_cases heq : a = b
  · exact heq
  · exact absurd ⟨hadef, hbdef⟩ ((h.forall addrRel_symm ha hb heq).2 huser)

/-- C2 witness: from the empty store, create a default address, create a
second default address for the same user (which clears the first), then
re-default the first by id — at most one default survives throughout. -/
theorem c2_at_most_one_default_address_witness :
    AddrInv Db.empty ∧
    (∀ a ∈ (applyAddressOps Db.empty
        [AddressOp.create ⟨2, "Home", "s", "c", "st", "z", true, none⟩,
         AddressOp.create ⟨2, "Work", "s2", "c2", "st2", "z2", true, none⟩,
         AddressOp.update 0
           ⟨none, none, none, none, none, some true, none⟩]).addresses,
      ∀ b ∈ (applyAddressOps Db.empty
        [AddressOp.create ⟨2, "Home", "s", "c", "st", "z", true, none⟩,
         AddressOp.create ⟨2, "Work", "s2", "c2", "st2", "z2", true, none⟩,
         AddressOp.update 0
           ⟨none, none, none, none, none, some true, none⟩]).addresses,
        a.user_id = b.user_id → a.is_default = true → b.is_default = true →
          a = b) :=
  ⟨⟨List.Pairwise.nil, fun r hr => absurd hr (List.not_mem_nil r)⟩,
   c2_at_most_one_default_address Db.empty
     ⟨List.Pairwise.nil, fun r hr => absurd hr (List.not_mem_nil r)⟩
     [AddressOp.create ⟨2, "Home", "s", "c", "st", "z", true, none⟩,
      AddressOp.create ⟨2, "Work", "s2", "c2", "st2", "z2", true, none⟩,
      AddressOp.update 0 ⟨none, none, none, none, none, some true, none⟩]⟩

end Aqua
